import Mathlib

/-!
Shallow embedding of the `wchisp` transport layer
(`src/transport/mod.rs` and `src/transport/usb.rs`).

Machine bytes are modelled as `Nat`, byte sequences as `List Nat`,
`anyhow::Result` as `Except Err`, and a Rust panic (out-of-bounds index
or slice) as the `none` case of an `Option` result.  `log::debug!`
evaluates its arguments only when debug logging is enabled, so the
channel state carries a `logEnabled` flag and the trace slices (which
can panic) are guarded by it, exactly as the `log` crate's macros
expand.
-/

namespace Wchisp

/-- Errors carried by `anyhow::Result`.  `fail code` stands for an
arbitrary propagated lower-layer error (USB I/O, timeout, descriptor
read, ...); the distinguished constructors are the errors this layer
itself constructs. -/
inductive Err where
  | mismatch
  | decode
  | notFound (nth : Nat)
  | openFailed
  | endpointsNotFound
  | fail (code : Nat)
  deriving DecidableEq, Repr

/-- Model of `std::time::Duration`, in nanoseconds. -/
structure Duration where
  nanos : Nat
  deriving DecidableEq, Repr

def Duration.from_millis (ms : Nat) : Duration := ⟨ms * 1000000⟩

def Duration.from_micros (us : Nat) : Duration := ⟨us * 1000⟩

/-- Constant `DEFAULT_TRANSPORT_TIMEOUT_MS` from `src/transport/mod.rs`. -/
def DEFAULT_TRANSPORT_TIMEOUT_MS : Nat := 1000

/-- Modelled from the spec: the external command-serialization
capability (`Command::into_raw`, owned by the protocol-encoding module,
not under `src/`).  A `Command` is abstracted by the outcome of its
serialization: a raw byte sequence, or an encoding error. -/
structure Command where
  raw : Except Err (List Nat)

def Command.into_raw (c : Command) : Except Err (List Nat) := c.raw

/-- Modelled from the spec: a `Response` is deserialized from a raw
byte sequence whose first byte is the type tag. -/
structure Response where
  tag : Nat
  bytes : List Nat
  deriving DecidableEq, Repr

/-- Modelled from the spec: the external response-deserialization
capability (`Response::from_raw`, owned by the protocol-encoding
module, not under `src/`).  The transport only requires that a
successfully decoded response's type tag is the frame's first byte;
an empty frame has no layout and is a decoding error. -/
def Response.from_raw (raw : List Nat) : Except Err Response :=
  match raw with
  | [] => .error .decode
  | b :: _ => .ok ⟨b, raw⟩

/-- Observable steps of one `transfer_with_wait` exchange, in order:
the outbound debug trace (header/payload split), the `send_raw` call,
the `sleep`, the `recv_raw` call, the inbound debug trace. -/
inductive Event where
  | trace_out (hdr payload : List Nat)
  | usb_send (raw : List Nat)
  | sleep (d : Duration)
  | usb_recv (wait : Duration)
  | trace_in (hdr payload : List Nat)
  deriving DecidableEq, Repr

/-- One concrete behaviour of a channel implementing the `Transport`
trait: the outcome of `send_raw` on each byte sequence, the outcome of
`recv_raw` for each wait duration, and whether debug logging is
enabled (which decides whether `log::debug!` evaluates its slicing
arguments). -/
structure Channel where
  send : List Nat → Except Err Unit
  recv : Duration → Except Err (List Nat)
  logEnabled : Bool

/-- Embedding of `Transport::transfer_with_wait` (src/transport/mod.rs lines 72-82).
Returns the `Result` (`none` = the exchange panicked) together with the
list of observable events that occurred.  Line by line:
`cmd.into_raw()?`; the outbound `log::debug!` slicing `req` at 3 (a
panic when `req` is shorter, evaluated only under debug logging);
`send_raw(req)?`; `sleep(1us)`; `recv_raw(wait)?`; the
`ensure!(req[0] == resp[0])` tag check (indexing panics on an empty
sequence); the inbound `log::debug!` slicing `resp` at 4; and
`Response::from_raw(resp)`. -/
def transfer_with_wait (ch : Channel) (cmd : Command) (wait : Duration) :
    Option (Except Err Response) × List Event :=
  match cmd.into_raw with
  | .error e => (some (.error e), [])
  | .ok req =>
    if ch.logEnabled = true ∧ req.length < 3 then (none, [])
    else
      let ev0 : List Event :=
        if ch.logEnabled = true then [.trace_out (req.take 3) (req.drop 3)] else []
      match ch.send req with
      | .error e => (some (.error e), ev0 ++ [.usb_send req])
      | .ok () =>
        let ev1 := ev0 ++ [.usb_send req, .sleep (Duration.from_micros 1), .usb_recv wait]
        match ch.recv wait with
        | .error e => (some (.error e), ev1)
        | .ok resp =>
          match req.head? with
          | none => (none, ev1)
          | some a =>
            match resp.head? with
            | none => (none, ev1)
            | some b =>
              if a = b then
                if ch.logEnabled = true ∧ resp.length < 4 then (none, ev1)
                else
                  (some (Response.from_raw resp),
                   ev1 ++ if ch.logEnabled = true
                          then [.trace_in (resp.take 4) (resp.drop 4)] else [])
              else (some (.error .mismatch), ev1)

/-- Embedding of `Transport::transfer` (src/transport/mod.rs lines 66-68). -/
def transfer (ch : Channel) (cmd : Command) :
    Option (Except Err Response) × List Event :=
  transfer_with_wait ch cmd (Duration.from_millis DEFAULT_TRANSPORT_TIMEOUT_MS)

/-- Constant `ENDPOINT_OUT` from `src/transport/usb.rs`. -/
def ENDPOINT_OUT : Nat := 0x02

/-- Constant `ENDPOINT_IN` from `src/transport/usb.rs`. -/
def ENDPOINT_IN : Nat := 0x82

/-- Constant `USB_TIMEOUT_MS` from `src/transport/usb.rs`. -/
def USB_TIMEOUT_MS : Nat := 5000

/-- Model of a `rusb` device descriptor: the fields the transport reads. -/
structure DeviceDescriptor where
  vendor_id : Nat
  product_id : Nat
  deriving DecidableEq, Repr

/-- Model of a `rusb` endpoint descriptor: the field the transport reads. -/
structure EndpointDesc where
  address : Nat
  deriving DecidableEq, Repr

/-- One alternate-setting descriptor of an interface, carrying its
endpoint descriptors. -/
structure InterfaceDesc where
  endpoint_descriptors : List EndpointDesc
  deriving DecidableEq, Repr

/-- One interface of a configuration, carrying its alternate-setting
descriptors. -/
structure Interface where
  descriptors : List InterfaceDesc
  deriving DecidableEq, Repr

/-- A configuration descriptor, carrying its interfaces. -/
structure ConfigDesc where
  interfaces : List Interface
  deriving DecidableEq, Repr

/-- Model of `rusb::DeviceHandle`: one concrete behaviour of an opened device,
as the outcome of each handle operation the transport invokes. -/
structure DeviceHandle where
  set_active_configuration : Nat → Except Err Unit
  claim_interface : Nat → Except Err Unit
  write_bulk : Nat → List Nat → Duration → Except Err Nat
  read_bulk : Nat → Nat → Duration → Except Err (List Nat)

/-- Model of `rusb::Device`: one concrete attached device, as the outcome of
each device operation the transport invokes.  `read_bulk endpoint
bufLen timeout` yields the bytes the device delivered into a buffer of
`bufLen` bytes (at most `bufLen` of them), `write_bulk endpoint raw
timeout` yields the number of bytes actually written. -/
structure Device where
  device_descriptor : Except Err DeviceDescriptor
  open_result : Except Err DeviceHandle
  config_descriptor : Nat → Except Err ConfigDesc
  active_config_descriptor : Except Err ConfigDesc

/-- One concrete state of the USB subsystem: the outcome of
`Context::new()` and of `context.devices()`. -/
structure UsbWorld where
  ctx : Except Err Unit
  devices : Except Err (List Device)

/-- The filter closure shared by `scan_devices` and `open_nth`
(src/transport/usb.rs lines 104-109 and 126-131):
`device.device_descriptor().map(|d| vid == 0x4348 && pid ==
0x55e0).unwrap_or(false)`. -/
def isWch (d : Device) : Bool :=
  match d.device_descriptor with
  | .ok desc => desc.vendor_id == 0x4348 && desc.product_id == 0x55e0
  | .error _ => false

/-- Structure `UsbTransport` (src/transport/usb.rs lines 92-94): owns the opened
device handle. -/
structure UsbTransport where
  device_handle : DeviceHandle

/-- Embedding of `UsbTransport::scan_devices` (src/transport/usb.rs lines 98-116):
count the attached devices matching the vendor/product filter (the
`enumerate().map(log)` step only logs and preserves the count). -/
def UsbTransport.scan_devices (w : UsbWorld) : Except Err Nat :=
  match w.ctx with
  | .error e => .error e
  | .ok () =>
    match w.devices with
    | .error e => .error e
    | .ok ds => .ok (ds.countP isWch)

/-- The endpoint descriptors of the first interface's first
alternate-setting descriptor, or none (src/transport/usb.rs lines
163-174: the two nested `if let ... .next()`). -/
def firstDescEndpoints (config : ConfigDesc) : List EndpointDesc :=
  match config.interfaces.head? with
  | none => []
  | some intf =>
    match intf.descriptors.head? with
    | none => []
    | some desc => desc.endpoint_descriptors

/-- The flag-setting loop of src/transport/usb.rs lines 165-172:
starting from `(endpoint_out_found, endpoint_in_found) = (false,
false)`, each endpoint whose address equals `ENDPOINT_OUT` /
`ENDPOINT_IN` sets the corresponding flag. -/
def endpointFlags (eps : List EndpointDesc) : Bool × Bool :=
  eps.foldl
    (fun f ep =>
      (f.1 || ep.address == ENDPOINT_OUT, f.2 || ep.address == ENDPOINT_IN))
    (false, false)

/-- Embedding of `UsbTransport::open_nth` (src/transport/usb.rs lines 120-187).
All three `device.open()` error arms (the two platform-specific ones
and the generic one) `bail!` with a message; they are collapsed into
`Err.openFailed`. -/
def UsbTransport.open_nth (nth : Nat) (w : UsbWorld) : Except Err UsbTransport :=
  match w.ctx with
  | .error e => .error e
  | .ok () =>
  match w.devices with
  | .error e => .error e
  | .ok ds =>
  match (ds.filter isWch)[nth]? with
  | none => .error (.notFound nth)
  | some device =>
  match device.open_result with
  | .error _ => .error .openFailed
  | .ok device_handle =>
  match device.config_descriptor 0 with
  | .error e => .error e
  | .ok config =>
  let flags := endpointFlags (firstDescEndpoints config)
  if !(flags.1 && flags.2) then .error .endpointsNotFound
  else
  match device_handle.set_active_configuration 1 with
  | .error e => .error e
  | .ok () =>
  match device.active_config_descriptor with
  | .error e => .error e
  | .ok _ =>
  match device.device_descriptor with
  | .error e => .error e
  | .ok _ =>
  match device_handle.claim_interface 0 with
  | .error e => .error e
  | .ok () => .ok ⟨device_handle⟩

/-- Embedding of `UsbTransport::open_any` (src/transport/usb.rs lines 190-192). -/
def UsbTransport.open_any (w : UsbWorld) : Except Err UsbTransport :=
  UsbTransport.open_nth 0 w

/-- Embedding of `UsbTransport::send_raw` (src/transport/usb.rs lines 204-208):
bulk-write to `ENDPOINT_OUT` with the fixed 5000 ms timeout; the byte
count returned by `write_bulk` is discarded. -/
def UsbTransport.send_raw (t : UsbTransport) (raw : List Nat) : Except Err Unit :=
  match t.device_handle.write_bulk ENDPOINT_OUT raw
      (Duration.from_millis USB_TIMEOUT_MS) with
  | .error e => .error e
  | .ok _ => .ok ()

/-- Embedding of `UsbTransport::recv_raw` (src/transport/usb.rs lines 210-216):
bulk-read from `ENDPOINT_IN` into a fresh 64-byte zero buffer with the
caller's timeout; `nread` bytes of the buffer are overwritten and
exactly the first `nread` bytes are returned (`buf[..nread].to_vec()`). -/
def UsbTransport.recv_raw (t : UsbTransport) (timeout : Duration) :
    Except Err (List Nat) :=
  let buf : List Nat := List.replicate 64 0
  match t.device_handle.read_bulk ENDPOINT_IN buf.length timeout with
  | .error e => .error e
  | .ok data =>
    let nread := min data.length buf.length
    let filled := data.take nread ++ buf.drop nread
    .ok (filled.take nread)

/-- Fixture: a device handle whose configuration and claim operations
succeed. -/
def okHandle : DeviceHandle :=
  ⟨fun _ => .ok (), fun _ => .ok (), fun _ _ _ => .ok 0, fun _ _ _ => .ok []⟩

/-- Fixture: a configuration whose first interface's first descriptor
carries both required endpoints. -/
def okConfig : ConfigDesc :=
  ⟨[⟨[⟨[⟨0x02⟩, ⟨0x82⟩]⟩]⟩]⟩

/-- Fixture: a matching, openable device exposing `okConfig`. -/
def okDevice : Device :=
  ⟨.ok ⟨0x4348, 0x55e0⟩, .ok okHandle, fun _ => .ok okConfig, .ok okConfig⟩

/-- C4: for every command and every channel behaviour, `transfer cmd`
returns exactly the same result as `transfer_with_wait cmd` with a
1000 ms wait, and the default timeout constant is 1000 ms. -/
theorem transfer_eq_transfer_with_wait_default (ch : Channel) (cmd : Command) :
    transfer ch cmd = transfer_with_wait ch cmd (Duration.from_millis 1000)
    ∧ DEFAULT_TRANSPORT_TIMEOUT_MS = 1000 :=
  ⟨rfl, rfl⟩

/-- C1: whenever `transfer_with_wait` obtains a received frame whose
first byte differs from the first byte of the serialized command, it
returns the protocol-mismatch error (no `Response` is produced from
those bytes), regardless of the rest of the frame.  The hypothesis
`hlog` expresses that the exchange reaches the receive step at all
(with debug tracing enabled, a command shorter than 3 bytes already
panics at the outbound trace). -/
theorem transfer_with_wait_tag_mismatch_errors
    (ch : Channel) (cmd : Command) (wait : Duration)
    (req resp : List Nat) (a b : Nat)
    (hreq : cmd.into_raw = .ok req)
    (hlog : ch.logEnabled = true → 3 ≤ req.length)
    (hsend : ch.send req = .ok ())
    (hrecv : ch.recv wait = .ok resp)
    (ha : req.head? = some a)
    (hb : resp.head? = some b)
    (hab : a ≠ b) :
    (transfer_with_wait ch cmd wait).1 = some (.error .mismatch) := by
  have hcond : ¬(ch.logEnabled = true ∧ req.length < 3) := by
    rintro ⟨hl, hlen⟩
    exact absurd (hlog hl) (by omega)
  unfold transfer_with_wait
  rw [hreq]
  simp only [if_neg hcond, hsend, hrecv, ha, hb, if_neg hab]

/-- C1 witness: tag `0x01` sent, tag `0x02` received, command of
length 3 with debug tracing enabled. -/
theorem transfer_with_wait_tag_mismatch_witness :
    Command.into_raw ⟨.ok [0x01, 0xAA, 0xBB]⟩ = .ok [0x01, 0xAA, 0xBB]
    ∧ (transfer_with_wait
         ⟨fun _ => .ok (), fun _ => .ok [0x02, 0xCC], true⟩
         ⟨.ok [0x01, 0xAA, 0xBB]⟩ (Duration.from_millis 1000)).1
        = some (.error .mismatch) :=
  ⟨rfl,
   transfer_with_wait_tag_mismatch_errors
     ⟨fun _ => .ok (), fun _ => .ok [0x02, 0xCC], true⟩
     ⟨.ok [0x01, 0xAA, 0xBB]⟩ (Duration.from_millis 1000)
     [0x01, 0xAA, 0xBB] [0x02, 0xCC] 0x01 0x02
     rfl (fun _ => by decide) rfl rfl rfl rfl (by decide)⟩

/-- C10: `UsbTransport::send_raw` succeeds whenever the underlying
bulk write returns without a USB-layer error, whatever byte count the
write reports — the count is discarded, so a partial write is
indistinguishable from a complete one. -/
theorem send_raw_discards_write_count
    (t : UsbTransport) (raw : List Nat) (n : Nat)
    (hw : t.device_handle.write_bulk ENDPOINT_OUT raw
        (Duration.from_millis USB_TIMEOUT_MS) = .ok n) :
    t.send_raw raw = .ok () := by
  unfold UsbTransport.send_raw
  rw [hw]

/-- C10 witness: the bulk write reports only 1 of the 3 bytes written,
yet `send_raw` returns success. -/
theorem send_raw_discards_write_count_witness :
    (1:Nat) < 3
    ∧ UsbTransport.send_raw
        ⟨⟨fun _ => .ok (), fun _ => .ok (), fun _ _ _ => .ok 1,
          fun _ _ _ => .ok []⟩⟩ [5, 6, 7] = .ok () :=
  ⟨by decide,
   send_raw_discards_write_count
     ⟨⟨fun _ => .ok (), fun _ => .ok (), fun _ _ _ => .ok 1,
       fun _ _ _ => .ok []⟩⟩ [5, 6, 7] 1 rfl⟩

/-- C5: when the underlying bulk read succeeds with `n` bytes
(necessarily at most the 64-byte buffer), `recv_raw` returns exactly
those `n` bytes — never the buffer padding — and any byte sequence
`recv_raw` returns has length at most 64. -/
theorem recv_raw_returns_exactly_read
    (t : UsbTransport) (timeout : Duration) (data : List Nat)
    (hlen : data.length ≤ 64)
    (hread : t.device_handle.read_bulk ENDPOINT_IN 64 timeout = .ok data) :
    t.recv_raw timeout = .ok data
    ∧ ∀ out, t.recv_raw timeout = .ok out → out.length ≤ 64 := by
  have hmain : t.recv_raw timeout = .ok data := by
    unfold UsbTransport.recv_raw
    simp only [List.length_replicate]
    rw [hread]
    simp only [Nat.min_eq_left hlen]
    rw [List.take_length]
    rw [List.take_left]
  refine ⟨hmain, fun out hout => ?_⟩
  rw [hmain] at hout
  cases hout
  exact hlen

/-- C5 witness: a 3-byte read out of the 64-byte buffer yields exactly
those 3 bytes. -/
theorem recv_raw_returns_exactly_read_witness :
    (3:Nat) ≤ 64
    ∧ (UsbTransport.recv_raw
        ⟨⟨fun _ => .ok (), fun _ => .ok (), fun _ _ _ => .ok 0,
          fun _ _ _ => .ok [9, 8, 7]⟩⟩ (Duration.from_millis 1000) = .ok [9, 8, 7]
      ∧ ∀ out, UsbTransport.recv_raw
          ⟨⟨fun _ => .ok (), fun _ => .ok (), fun _ _ _ => .ok 0,
            fun _ _ _ => .ok [9, 8, 7]⟩⟩ (Duration.from_millis 1000) = .ok out
          → out.length ≤ 64) :=
  ⟨by decide,
   recv_raw_returns_exactly_read
     ⟨⟨fun _ => .ok (), fun _ => .ok (), fun _ _ _ => .ok 0,
       fun _ _ _ => .ok [9, 8, 7]⟩⟩ (Duration.from_millis 1000) [9, 8, 7]
     (by decide) rfl⟩

/-- The flag-setting loop computes presence: the accumulated flags are
the initial flags or-ed with membership of each address. -/
theorem endpointFlags_foldl_eq (eps : List EndpointDesc) (f : Bool × Bool) :
    eps.foldl
      (fun f ep =>
        (f.1 || ep.address == ENDPOINT_OUT, f.2 || ep.address == ENDPOINT_IN))
      f
    = (f.1 || eps.any (fun ep => ep.address == ENDPOINT_OUT),
       f.2 || eps.any (fun ep => ep.address == ENDPOINT_IN)) := by
  induction eps generalizing f with
  | nil => simp
  | cons e t ih =>
    simp only [List.foldl_cons, List.any_cons, ih, Bool.or_assoc]

/-- Lemma: `endpointFlags` is exactly presence of the two endpoint addresses. -/
theorem endpointFlags_eq_any (eps : List EndpointDesc) :
    endpointFlags eps
    = (eps.any (fun ep => ep.address == ENDPOINT_OUT),
       eps.any (fun ep => ep.address == ENDPOINT_IN)) := by
  unfold endpointFlags
  rw [endpointFlags_foldl_eq]
  simp

/-- C6: `scan_devices` returns exactly the number of attached devices
whose descriptor reports vendor `0x4348` and product `0x55e0`
(`countP` is 0 when none match and is independent of the non-matching
devices present), and the count never depends on whether any device
can be opened: replacing every device's open outcome by a failure
leaves the result unchanged, so no device is opened. -/
theorem scan_devices_counts_matches
    (w : UsbWorld) (ds : List Device)
    (hctx : w.ctx = .ok ()) (hdev : w.devices = .ok ds) :
    UsbTransport.scan_devices w = .ok (ds.countP isWch)
    ∧ UsbTransport.scan_devices
        ⟨w.ctx, .ok (ds.map fun d => { d with open_result := .error .openFailed })⟩
      = .ok (ds.countP isWch) := by
  constructor
  · unfold UsbTransport.scan_devices
    rw [hctx]
    simp only [hdev]
  · unfold UsbTransport.scan_devices
    simp only [hctx]
    rw [List.countP_map]
    rfl

/-- C6 witness: two matching devices and one non-matching device give
a count of 2. -/
theorem scan_devices_counts_matches_witness :
    [Device.mk (.ok ⟨0x4348, 0x55e0⟩) (.error .openFailed) (fun _ => .error (.fail 0))
        (.error (.fail 0)),
     Device.mk (.ok ⟨0x1111, 0x2222⟩) (.error .openFailed) (fun _ => .error (.fail 0))
        (.error (.fail 0)),
     Device.mk (.ok ⟨0x4348, 0x55e0⟩) (.error .openFailed) (fun _ => .error (.fail 0))
        (.error (.fail 0))].countP isWch = 2
    ∧ UsbTransport.scan_devices
        ⟨.ok (), .ok
          [Device.mk (.ok ⟨0x4348, 0x55e0⟩) (.error .openFailed) (fun _ => .error (.fail 0))
              (.error (.fail 0)),
           Device.mk (.ok ⟨0x1111, 0x2222⟩) (.error .openFailed) (fun _ => .error (.fail 0))
              (.error (.fail 0)),
           Device.mk (.ok ⟨0x4348, 0x55e0⟩) (.error .openFailed) (fun _ => .error (.fail 0))
              (.error (.fail 0))]⟩
      = .ok
          ([Device.mk (.ok ⟨0x4348, 0x55e0⟩) (.error .openFailed) (fun _ => .error (.fail 0))
              (.error (.fail 0)),
            Device.mk (.ok ⟨0x1111, 0x2222⟩) (.error .openFailed) (fun _ => .error (.fail 0))
              (.error (.fail 0)),
            Device.mk (.ok ⟨0x4348, 0x55e0⟩) (.error .openFailed) (fun _ => .error (.fail 0))
              (.error (.fail 0))].countP isWch) :=
  ⟨rfl,
   (scan_devices_counts_matches _ _ rfl rfl).1⟩

/-- C7: `open_nth i` fails with the not-found error whenever `i` is at
least the number of matching devices, and `open_any` is identical to
`open_nth 0` (unconditionally, hence in particular whenever a matching
device exists). -/
theorem open_nth_out_of_range_not_found
    (w : UsbWorld) (ds : List Device) (i : Nat)
    (hctx : w.ctx = .ok ()) (hdev : w.devices = .ok ds)
    (hi : (ds.filter isWch).length ≤ i) :
    UsbTransport.open_nth i w = .error (.notFound i)
    ∧ ∀ v : UsbWorld, UsbTransport.open_any v = UsbTransport.open_nth 0 v := by
  refine ⟨?_, fun _ => rfl⟩
  unfold UsbTransport.open_nth
  rw [hctx]
  simp only [hdev, List.getElem?_eq_none hi]

/-- C7 witness: one matching device attached; `open_nth 1` is
not-found. -/
theorem open_nth_out_of_range_not_found_witness :
    ([Device.mk (.ok ⟨0x4348, 0x55e0⟩) (.error .openFailed) (fun _ => .error (.fail 0))
        (.error (.fail 0))].filter isWch).length ≤ 1
    ∧ (UsbTransport.open_nth 1
        ⟨.ok (), .ok
          [Device.mk (.ok ⟨0x4348, 0x55e0⟩) (.error .openFailed) (fun _ => .error (.fail 0))
             (.error (.fail 0))]⟩ = .error (.notFound 1)
      ∧ ∀ v : UsbWorld, UsbTransport.open_any v = UsbTransport.open_nth 0 v) :=
  ⟨by decide,
   open_nth_out_of_range_not_found _ _ 1 rfl rfl (by decide)⟩

/-- C8: after a matching device at index `nth` is successfully opened
and its configuration descriptor read, `open_nth` decides on the first
interface's first descriptor alone: if an endpoint with address `0x02`
or one with address `0x82` is absent there, it fails with the
endpoints-not-found error; only when both are present does it proceed
to activate configuration 1 and claim interface 0 (with the two
intervening descriptor reads), propagating any failure of those steps,
and on full success returns a channel owning the handle. -/
theorem open_nth_endpoint_check_then_configure
    (w : UsbWorld) (ds : List Device) (nth : Nat) (d : Device)
    (hdl : DeviceHandle) (config : ConfigDesc)
    (hctx : w.ctx = .ok ()) (hdev : w.devices = .ok ds)
    (hnth : (ds.filter isWch)[nth]? = some d)
    (hopen : d.open_result = .ok hdl)
    (hcfg : d.config_descriptor 0 = .ok config) :
    (¬((firstDescEndpoints config).any (fun ep => ep.address == ENDPOINT_OUT) = true
        ∧ (firstDescEndpoints config).any (fun ep => ep.address == ENDPOINT_IN) = true)
      → UsbTransport.open_nth nth w = .error .endpointsNotFound)
    ∧ (((firstDescEndpoints config).any (fun ep => ep.address == ENDPOINT_OUT) = true
        ∧ (firstDescEndpoints config).any (fun ep => ep.address == ENDPOINT_IN) = true)
      → UsbTransport.open_nth nth w
          = (hdl.set_active_configuration 1).bind fun _ =>
            d.active_config_descriptor.bind fun _ =>
            d.device_descriptor.bind fun _ =>
            (hdl.claim_interface 0).bind fun _ => .ok ⟨hdl⟩) := by
  have hflags := endpointFlags_eq_any (firstDescEndpoints config)
  constructor
  · intro hno
    have hand : ((firstDescEndpoints config).any (fun ep => ep.address == ENDPOINT_OUT)
        && (firstDescEndpoints config).any (fun ep => ep.address == ENDPOINT_IN)) = false := by
      rcases hx : (firstDescEndpoints config).any (fun ep => ep.address == ENDPOINT_OUT) with _ | _
        <;> rcases hy : (firstDescEndpoints config).any (fun ep => ep.address == ENDPOINT_IN)
          with _ | _ <;> simp_all
    unfold UsbTransport.open_nth
    rw [hctx]
    simp only [hdev, hnth, hopen, hcfg, hflags, hand, Bool.not_false, if_true]
  · rintro ⟨h1, h2⟩
    unfold UsbTransport.open_nth
    rw [hctx]
    simp only [hdev, hnth, hopen, hcfg, hflags, h1, h2, Bool.and_self, Bool.not_true,
      Bool.false_eq_true, if_false]
    rcases hsa : hdl.set_active_configuration 1 with e | u
    · simp [hsa, Except.bind]
    · cases u
      rcases hac : d.active_config_descriptor with e | c2
      · simp [hsa, hac, Except.bind]
      · rcases hdd : d.device_descriptor with e | dd
        · simp [hsa, hac, hdd, Except.bind]
        · rcases hci : hdl.claim_interface 0 with e | u2
          · simp [hsa, hac, hdd, hci, Except.bind]
          · cases u2
            simp [hsa, hac, hdd, hci, Except.bind]

/-- C8 witness: one matching device whose first interface's first
descriptor has the two endpoints; the open pipeline succeeds. -/
theorem open_nth_endpoint_check_then_configure_witness :
    ((firstDescEndpoints okConfig).any (fun ep => ep.address == ENDPOINT_OUT) = true
      ∧ (firstDescEndpoints okConfig).any (fun ep => ep.address == ENDPOINT_IN) = true)
    ∧ ((¬((firstDescEndpoints okConfig).any (fun ep => ep.address == ENDPOINT_OUT) = true
          ∧ (firstDescEndpoints okConfig).any (fun ep => ep.address == ENDPOINT_IN) = true)
        → UsbTransport.open_nth 0 ⟨.ok (), .ok [okDevice]⟩ = .error .endpointsNotFound)
      ∧ (((firstDescEndpoints okConfig).any (fun ep => ep.address == ENDPOINT_OUT) = true
          ∧ (firstDescEndpoints okConfig).any (fun ep => ep.address == ENDPOINT_IN) = true)
        → UsbTransport.open_nth 0 ⟨.ok (), .ok [okDevice]⟩
            = (okHandle.set_active_configuration 1).bind fun _ =>
              okDevice.active_config_descriptor.bind fun _ =>
              okDevice.device_descriptor.bind fun _ =>
              (okHandle.claim_interface 0).bind fun _ => .ok ⟨okHandle⟩)) :=
  ⟨by decide,
   open_nth_endpoint_check_then_configure
     ⟨.ok (), .ok [okDevice]⟩ [okDevice] 0 okDevice okHandle okConfig
     rfl rfl rfl rfl rfl⟩

/-- C2 counterexample: the channel replies `[0x01, 0xCC]` to the
command serializing to `[0x01, 0xAA, 0xBB]`, debug logging is enabled,
and `transfer` panics (`none`): the inbound debug trace slices the
2-byte frame at index 4.  So `transfer` does not return success on
every such channel. -/
theorem transfer_two_byte_reply_panics_with_trace :
    (transfer ⟨fun _ => .ok (), fun _ => .ok [0x01, 0xCC], true⟩
      ⟨.ok [0x01, 0xAA, 0xBB]⟩).1 = none := rfl

/-- C2 amended: same exchange, with debug tracing disabled (so the
inbound trace's 4-byte slice is never evaluated): `transfer` succeeds
and decodes a `Response` whose type tag is `0x01`. -/
theorem transfer_two_byte_reply_ok_without_trace
    (ch : Channel) (cmd : Command)
    (hraw : cmd.into_raw = .ok [0x01, 0xAA, 0xBB])
    (hlog : ch.logEnabled = false)
    (hsend : ch.send [0x01, 0xAA, 0xBB] = .ok ())
    (hrecv : ch.recv (Duration.from_millis 1000) = .ok [0x01, 0xCC]) :
    (transfer ch cmd).1 = some (.ok ⟨0x01, [0x01, 0xCC]⟩)
    ∧ Response.tag ⟨0x01, [0x01, 0xCC]⟩ = 0x01 := by
  refine ⟨?_, rfl⟩
  unfold transfer DEFAULT_TRANSPORT_TIMEOUT_MS transfer_with_wait
  rw [hraw]
  simp [hlog, hsend, hrecv, Response.from_raw]

/-- C2 amended witness. -/
theorem transfer_two_byte_reply_ok_without_trace_witness :
    Channel.logEnabled ⟨fun _ => .ok (), fun _ => .ok [0x01, 0xCC], false⟩ = false
    ∧ ((transfer ⟨fun _ => .ok (), fun _ => .ok [0x01, 0xCC], false⟩
          ⟨.ok [0x01, 0xAA, 0xBB]⟩).1 = some (.ok ⟨0x01, [0x01, 0xCC]⟩)
      ∧ Response.tag ⟨0x01, [0x01, 0xCC]⟩ = 0x01) :=
  ⟨rfl, transfer_two_byte_reply_ok_without_trace _ _ rfl rfl rfl rfl⟩

/-- C3 counterexample.  First conjunct: a received frame of 2 bytes
(shorter than 4) with a mismatched tag makes `transfer_with_wait`
return the mismatch error value — the tag check runs before the
inbound trace, so no out-of-bounds panic happens.  Second conjunct:
with debug logging disabled, a 1-byte serialized command and a 2-byte
frame return a success value — the trace slices are never evaluated.
Both refute the claim that such exchanges abort with a panic instead
of returning. -/
theorem transfer_with_wait_short_inputs_can_return :
    (transfer_with_wait ⟨fun _ => .ok (), fun _ => .ok [0x02, 0x07], true⟩
        ⟨.ok [0x01, 0x02, 0x03]⟩ (Duration.from_millis 1000)).1
      = some (.error .mismatch)
    ∧ (transfer_with_wait ⟨fun _ => .ok (), fun _ => .ok [0x01, 0x07], false⟩
        ⟨.ok [0x01]⟩ (Duration.from_millis 1000)).1
      = some (.ok ⟨0x01, [0x01, 0x07]⟩) := ⟨rfl, rfl⟩

/-- C3 amended: for an exchange whose serialization, send and receive
all succeed, `transfer_with_wait` panics (returns no value) exactly
when: debug tracing is enabled and the serialized command is shorter
than 3 bytes (outbound trace slice); or the serialized command is
empty, or the received frame is empty (the tag check indexes byte 0 of
each); or the two leading bytes agree, tracing is enabled, and the
frame is shorter than 4 bytes (inbound trace slice).  In every other
case it returns a `Result`. -/
theorem transfer_with_wait_panics_iff
    (ch : Channel) (cmd : Command) (wait : Duration)
    (req resp : List Nat)
    (hreq : cmd.into_raw = .ok req)
    (hsend : ch.send req = .ok ())
    (hrecv : ch.recv wait = .ok resp) :
    (transfer_with_wait ch cmd wait).1 = none ↔
      (ch.logEnabled = true ∧ req.length < 3)
      ∨ req = []
      ∨ resp = []
      ∨ (req.head? = resp.head? ∧ ch.logEnabled = true ∧ resp.length < 4) := by
  unfold transfer_with_wait
  rw [hreq]
  by_cases h1 : ch.logEnabled = true ∧ req.length < 3
  · simp [h1]
  · simp only [if_neg h1, hsend, hrecv]
    cases req with
    | nil =>
      simp at h1
      simp [h1]
    | cons a req' =>
      cases resp with
      | nil => simp
      | cons b resp' =>
        simp only [List.head?_cons]
        by_cases hab : a = b
        · subst hab
          by_cases h2 : ch.logEnabled = true ∧ (a :: resp').length < 4
          · obtain ⟨hl, hlen⟩ := h2
            have hlen' : resp'.length + 1 < 4 := by simpa using hlen
            simp [hl, hlen']
          · simp only [if_pos rfl, if_neg h2]
            simp [h1, h2, Response.from_raw]
            refine ⟨fun hl => ?_, fun hl => ?_⟩
            · rcases le_or_lt 2 req'.length with h | h
              · exact h
              · exact absurd ⟨hl, by simp only [List.length_cons]; omega⟩ h1
            · rcases le_or_lt 3 resp'.length with h | h
              · exact h
              · exact absurd ⟨hl, by simp only [List.length_cons]; omega⟩ h2
        · simp [h1, hab]
          intro hl
          rcases le_or_lt 2 req'.length with h | h
          · exact h
          · exact absurd ⟨hl, by simp only [List.length_cons]; omega⟩ h1

/-- C3 amended witness: 3-byte command, 2-byte frame with matching
tag, tracing enabled — the inbound slice panics, matching the
right-hand side of the characterization. -/
theorem transfer_with_wait_panics_iff_witness :
    Command.into_raw ⟨.ok [0x01, 0x02, 0x03]⟩ = .ok [0x01, 0x02, 0x03]
    ∧ ((transfer_with_wait ⟨fun _ => .ok (), fun _ => .ok [0x01, 0x02], true⟩
          ⟨.ok [0x01, 0x02, 0x03]⟩ (Duration.from_millis 1000)).1 = none ↔
        ((Channel.logEnabled ⟨fun _ => .ok (), fun _ => .ok [0x01, 0x02], true⟩ = true
            ∧ ([0x01, 0x02, 0x03] : List Nat).length < 3)
          ∨ ([0x01, 0x02, 0x03] : List Nat) = []
          ∨ ([0x01, 0x02] : List Nat) = []
          ∨ (([0x01, 0x02, 0x03] : List Nat).head? = ([0x01, 0x02] : List Nat).head?
              ∧ Channel.logEnabled ⟨fun _ => .ok (), fun _ => .ok [0x01, 0x02], true⟩ = true
              ∧ ([0x01, 0x02] : List Nat).length < 4))) :=
  ⟨rfl,
   transfer_with_wait_panics_iff
     ⟨fun _ => .ok (), fun _ => .ok [0x01, 0x02], true⟩
     ⟨.ok [0x01, 0x02, 0x03]⟩ (Duration.from_millis 1000)
     [0x01, 0x02, 0x03] [0x01, 0x02] rfl rfl rfl⟩

/-- C9: in every `transfer_with_wait` exchange that reaches the send
step and whose send succeeds, the observable event sequence contains
the contiguous block send, 1-microsecond sleep, receive: `recv_raw` is
never issued immediately after `send_raw` without the forced delay in
between. -/
theorem transfer_with_wait_sleeps_between_send_and_recv
    (ch : Channel) (cmd : Command) (wait : Duration) (req : List Nat)
    (hreq : cmd.into_raw = .ok req)
    (hlog : ch.logEnabled = true → 3 ≤ req.length)
    (hsend : ch.send req = .ok ()) :
    ∃ pre post : List Event,
      (transfer_with_wait ch cmd wait).2
        = pre ++ [.usb_send req, .sleep (Duration.from_micros 1), .usb_recv wait]
            ++ post := by
  have hcond : ¬(ch.logEnabled = true ∧ req.length < 3) := by
    rintro ⟨hl, hlen⟩
    exact absurd (hlog hl) (by omega)
  unfold transfer_with_wait
  rw [hreq]
  simp only [if_neg hcond, hsend]
  refine ⟨if ch.logEnabled = true
      then [Event.trace_out (req.take 3) (req.drop 3)] else [], ?_⟩
  rcases hr : ch.recv wait with e | resp
  · simp only [hr]
    exact ⟨[], by simp⟩
  · simp only [hr]
    rcases hh : req.head? with _ | a
    · simp only [hh]
      exact ⟨[], by simp⟩
    · simp only [hh]
      rcases hh2 : resp.head? with _ | b
      · simp only [hh2]
        exact ⟨[], by simp⟩
      · simp only [hh2]
        by_cases hab : a = b
        · by_cases h2 : ch.logEnabled = true ∧ resp.length < 4
          · exact ⟨[], by simp [hab, h2]⟩
          · exact ⟨if ch.logEnabled = true
                then [Event.trace_in (resp.take 4) (resp.drop 4)] else [],
              by simp [hab, if_neg h2]⟩
        · exact ⟨[], by simp [hab]⟩

/-- C9 witness: tracing disabled, send succeeds, peer replies; the
event trace is exactly the send-sleep-receive block. -/
theorem transfer_with_wait_sleeps_witness :
    Command.into_raw ⟨.ok [0x01, 0xAA, 0xBB]⟩ = .ok [0x01, 0xAA, 0xBB]
    ∧ ∃ pre post : List Event,
        (transfer_with_wait ⟨fun _ => .ok (), fun _ => .ok [0x01, 0x02, 0x03, 0x04], false⟩
            ⟨.ok [0x01, 0xAA, 0xBB]⟩ (Duration.from_millis 1000)).2
          = pre ++ [.usb_send [0x01, 0xAA, 0xBB],
                    .sleep (Duration.from_micros 1),
                    .usb_recv (Duration.from_millis 1000)] ++ post :=
  ⟨rfl,
   transfer_with_wait_sleeps_between_send_and_recv
     ⟨fun _ => .ok (), fun _ => .ok [0x01, 0x02, 0x03, 0x04], false⟩
     ⟨.ok [0x01, 0xAA, 0xBB]⟩ (Duration.from_millis 1000) [0x01, 0xAA, 0xBB]
     rfl (fun h => by cases h) rfl⟩

end Wchisp
